import Mathlib

/-!
Shallow embedding of bytenode (src/index.ts): compiling JavaScript to a V8
bytecode-cache buffer, patching the version-dependent header, reading the
source-hash/length field, running a buffer against a synthesized placeholder
source, the `.jsc` module-loading hook, and `compileFile`.

Buffers are `List Nat` (byte sequences).  The V8 engine itself is external to
the repository and is modelled as an abstract `Engine` record of the engine
operations the source invokes (`new vm.Script` with `produceCachedData`,
`createCachedData`/`cachedData`, the `cachedDataRejected` signal,
`runInThisContext`).  Everything the repository's own code does to bytes,
strings and control flow is embedded faithfully from src/index.ts.
-/

namespace Bytenode

/-- Writes the bytes of `s` into `d` starting at index `t`, clipped at the end
of `d` (the semantics of Node's `Buffer.prototype.copy` target side: the
destination never grows). -/
def writeAt : List Nat → Nat → List Nat → List Nat
  | [], _, _ => []
  | d, _, [] => d
  | _ :: d, 0, y :: s => y :: writeAt d 0 s
  | x :: d, t + 1, s => x :: writeAt d t s

/-- Embedding of `src.slice(a, e).copy(dst, t)`: take the byte range
`[a, e)` of `src` (clipped to `src`'s length) and write it into `dst` at
offset `t`, in place, clipped to `dst`'s length. -/
def copyBytes (src : List Nat) (a e t : Nat) (dst : List Nat) : List Nat :=
  writeAt dst t ((src.take e).drop a)

/-- Embedding of JavaScript `String.prototype.startsWith`. -/
def startsWith (s p : String) : Bool :=
  p.data.isPrefixOf s.data

/-- The version test of the first branch in `fixBytecode` and `readSourceHash`:
`process.version.startsWith('v8.8') || process.version.startsWith('v8.9')`. -/
def isEarlyVersion (ver : String) : Bool :=
  startsWith ver "v8.8" || startsWith ver "v8.9"

/-- The version test of the second branch in `fixBytecode`:
`v12`, `v13`, `v14` or `v15`. -/
def isMidVersion (ver : String) : Bool :=
  startsWith ver "v12" || startsWith ver "v13" ||
    startsWith ver "v14" || startsWith ver "v15"

/-- Completion values of evaluated scripts (abstract). -/
inductive JSValue where
  | undefined
  | num (n : Int)
  | str (s : String)
  deriving DecidableEq

/-- Shape of the `require` function the `.jsc` extension handler builds:
which properties were attached to it. -/
structure RequireShape where
  hasResolve : Bool
  hasExtensions : Bool
  hasCache : Bool
  hasMain : Bool
  deriving DecidableEq

/-- The arguments passed to the compiled module wrapper by the `.jsc`
extension handler (`[module.exports, require, module, filename, dirname,
process, global]`). -/
inductive WrapperArg where
  | moduleExports
  | requireFn (r : RequireShape)
  | moduleHandle
  | filenameArg (s : String)
  | dirnameArg (s : String)
  | processHandle
  | globalObj
  deriving DecidableEq

/-- The V8 engine operations that src/index.ts invokes, as an abstract record:
the engine is external to the repository (Node's `vm` module). -/
structure Engine where
  /-- Whether `script.createCachedData` exists and is callable. -/
  createCachedDataAvailable : Bool
  /-- `script.createCachedData()` for a script compiled from the given source
  with `produceCachedData: true`. -/
  createCachedData : String → List Nat
  /-- The `script.cachedData` field attached by the compile step (the fallback
  used when `createCachedData` is unavailable). -/
  cachedData : String → List Nat
  /-- The `cachedDataRejected` signal of `new vm.Script(src, { cachedData })`. -/
  rejects : String → List Nat → Bool
  /-- `script.runInThisContext()` for a script built from the given source text
  with the given cached data. -/
  runScript : String → List Nat → JSValue
  /-- Applying the module wrapper returned by `script.runInThisContext()` to an
  argument list (`compiledWrapper.apply(module.exports, args)`). -/
  applyWrapper : String → List Nat → List WrapperArg → JSValue
  /-- Directly evaluating a source text in the same context (the reference
  semantics the round-trip property compares against). -/
  eval : String → JSValue

end Bytenode

namespace Bytenode

/-- `COMPILED_EXTNAME = '.jsc'`. -/
def COMPILED_EXTNAME : String := ".jsc"

/-- The fixed dummy source compiled by `fixBytecode`: `'"ಠ_ಠ"'`. -/
def dummySource : String := "\"ಠ_ಠ\""

/-- Embedding of `compileCode`: compile the source with
`produceCachedData: true` and return `script.createCachedData()` when that
method exists, else the `script.cachedData` fallback.  (The `typeof` guard on
the argument is enforced by the type `String` here.) -/
def compileCode (E : Engine) (javascriptCode : String) : List Nat :=
  if E.createCachedDataAvailable then E.createCachedData javascriptCode
  else E.cachedData javascriptCode

/-- Embedding of `fixBytecode`: compile the dummy source, then copy
version-dependent header byte ranges from the dummy buffer into the target
buffer at the same offsets.  Early (v8.8/v8.9): ranges `[16,20)` and `[20,24)`;
mid (v12..v15): range `[12,16)`; every other version: ranges `[12,16)` and
`[16,20)`. -/
def fixBytecode (E : Engine) (ver : String) (bytecodeBuffer : List Nat) : List Nat :=
  let dummyBytecode := compileCode E dummySource
  if isEarlyVersion ver then
    copyBytes dummyBytecode 20 24 20 (copyBytes dummyBytecode 16 20 16 bytecodeBuffer)
  else if isMidVersion ver then
    copyBytes dummyBytecode 12 16 12 bytecodeBuffer
  else
    copyBytes dummyBytecode 16 20 16 (copyBytes dummyBytecode 12 16 12 bytecodeBuffer)

/-- Embedding of `readSourceHash`: decode the 4-byte field
`slice(off, off+4).reduce((sum, number, power) => sum + number * 256 ** power, 0)`
where `off` is 12 for v8.8/v8.9 and 8 otherwise. -/
def readSourceHash (ver : String) (bytecodeBuffer : List Nat) : Nat :=
  if isEarlyVersion ver then
    ((bytecodeBuffer.take 16).drop 12).enum.foldl
      (fun sum p => sum + p.2 * 256 ^ p.1) 0
  else
    ((bytecodeBuffer.take 12).drop 8).enum.foldl
      (fun sum p => sum + p.2 * 256 ^ p.1) 0

/-- The zero-width space character (U+200B) used for placeholder sources. -/
def zwsp : Char := '\u200b'

/-- The placeholder ("dummy code") synthesized by `runBytecode` and the `.jsc`
extension handler: empty when the decoded length is at most 1, otherwise a
quoted string literal of `length - 2` zero-width spaces. -/
def dummyCode (length : Nat) : String :=
  if length > 1 then
    "\"" ++ String.mk (List.replicate (length - 2) zwsp) ++ "\""
  else
    ""

/-- JavaScript values that may be passed to `runBytecode`: a byte buffer or a
non-buffer value (`Buffer.isBuffer` distinguishes them). -/
inductive JSInput where
  | buffer (b : List Nat)
  | jsString (s : String)
  | jsNumber (n : Int)
  | jsUndefined
  deriving DecidableEq

/-- Embedding of `Buffer.isBuffer`. -/
def JSInput.isBuffer : JSInput → Bool
  | JSInput.buffer _ => true
  | _ => false

/-- The errors thrown by src/index.ts, tagged by their message. -/
inductive BytenodeError where
  | invalidArgument (msg : String)
  | incompatibleCache (msg : String)
  deriving DecidableEq

/-- Engine invocations performed during a run, in order. -/
inductive EngineCall where
  | compileCall (src : String)
  | scriptWithCache (src : String) (cache : List Nat)
  | runInThisContext
  deriving DecidableEq

/-- Result of `runBytecode`: the thrown error or returned value, the input as
left after any in-place mutation, and the engine calls performed. -/
structure RunOutcome where
  result : Except BytenodeError JSValue
  finalInput : JSInput
  calls : List EngineCall

/-- Embedding of `runBytecode`: check `Buffer.isBuffer`, patch the buffer in
place via `fixBytecode`, read the placeholder length from the patched buffer,
synthesize the placeholder, build the script with the patched buffer as
`cachedData`, throw on `cachedDataRejected`, else return
`script.runInThisContext()`. -/
def runBytecode (E : Engine) (ver : String) (input : JSInput) : RunOutcome :=
  match input with
  | JSInput.buffer b =>
      let patched := fixBytecode E ver b
      let length := readSourceHash ver patched
      let code := dummyCode length
      if E.rejects code patched then
        { result := Except.error (BytenodeError.incompatibleCache
            "Invalid or incompatible cached data (cachedDataRejected)")
          finalInput := JSInput.buffer patched
          calls := [EngineCall.compileCall dummySource,
                    EngineCall.scriptWithCache code patched] }
      else
        { result := Except.ok (E.runScript code patched)
          finalInput := JSInput.buffer patched
          calls := [EngineCall.compileCall dummySource,
                    EngineCall.scriptWithCache code patched,
                    EngineCall.runInThisContext] }
  | other =>
      { result := Except.error (BytenodeError.invalidArgument
          "bytecodeBuffer must be a buffer object.")
        finalInput := other
        calls := [] }

/-- Result of the `.jsc` extension handler: the thrown error or returned
value, and the argument list the compiled module wrapper was applied to
(when the handler got that far). -/
structure LoadOutcome where
  result : Except BytenodeError JSValue
  wrapperCall : Option (List WrapperArg)

/-- Embedding of the `Module._extensions['.jsc']` handler: read the file's
bytes (passed in as `fileBytes`), patch them, read the placeholder length,
synthesize the placeholder, build the script with the buffer as `cachedData`,
throw on `cachedDataRejected`, else build `require` (with `resolve`,
`extensions`, `cache` attached, and `main` when `process.mainModule` exists),
obtain the compiled wrapper from `runInThisContext` and apply it to
`[module.exports, require, module, filename, dirname, process, global]`.
`dirnameFn` stands for Node's `path.dirname`; `hasMainModule` for whether
`process.mainModule` is set. -/
def jscExtension (E : Engine) (ver : String) (dirnameFn : String → String)
    (hasMainModule : Bool) (filename : String) (fileBytes : List Nat) :
    LoadOutcome :=
  let patched := fixBytecode E ver fileBytes
  let length := readSourceHash ver patched
  let code := dummyCode length
  if E.rejects code patched then
    { result := Except.error (BytenodeError.incompatibleCache
        "Invalid or incompatible cached data (cachedDataRejected)")
      wrapperCall := none }
  else
    let req : RequireShape :=
      { hasResolve := true
        hasExtensions := true
        hasCache := true
        hasMain := hasMainModule }
    let args := [WrapperArg.moduleExports, WrapperArg.requireFn req,
                 WrapperArg.moduleHandle, WrapperArg.filenameArg filename,
                 WrapperArg.dirnameArg (dirnameFn filename),
                 WrapperArg.processHandle, WrapperArg.globalObj]
    { result := Except.ok (E.applyWrapper code patched args)
      wrapperCall := some args }

/-- Modelled from the spec: Node's `Module.wrap`, the module-wrapping step
`compileFile` uses when `compileAsModule` is set.  It is external to src/
(Node's `module` library); the spec describes it as wrapping the source in a
module-calling-convention prelude/suffix whose parameters are the exports
object, the scoped require function, the module handle, the filename and the
directory. -/
def moduleWrap (script : String) : String :=
  "(function (exports, require, module, __filename, __dirname) \x7b " ++
    script ++ "\n\x7d);"

/-- Embedding of `javascriptCode.replace(/^#!.*/, '')`: strip a leading
interpreter directive line (everything from a leading `#!` up to, but not
including, the first newline). -/
def stripShebang (s : String) : String :=
  if startsWith s "#!" then String.mk (s.data.dropWhile (fun c => c ≠ '\n'))
  else s

/-- The `BytenodeOptions` object accepted by `compileFile`.  Absent properties
are `none` (JavaScript `undefined`). -/
structure BytenodeOptions where
  filename : Option String
  output : Option String
  compileAsModule : Option Bool
  electron : Option Bool
  createLoader : Option Bool
  loaderFilename : Option String
  deriving DecidableEq

/-- The two call forms of `compileFile`: the legacy string filename, or an
options object. -/
inductive CompileFileArgs where
  | legacy (filename : String)
  | opts (o : BytenodeOptions)

/-- Filesystem writes performed by `compileFile`, in order.  The loader-stub
write records the arguments handed to `addLoaderFile` (its internal path
resolution goes through Node's `path` library, external to this model). -/
inductive FsWrite where
  | artifact (path : String) (bytes : List Nat)
  | loaderStub (fileToLoad : String) (loaderFilename : Option String)
  deriving DecidableEq

/-- Result of `compileFile`: the returned compiled filename or thrown error,
and the filesystem writes performed, in order. -/
structure CompileFileOutcome where
  result : Except BytenodeError String
  writes : List FsWrite

/-- JavaScript falsiness of an optional string: `undefined` and `''` are
falsy (the `a || b` chains in `compileFile`). -/
def strFalsy (a : Option String) : Bool :=
  (a.getD "").isEmpty

/-- The `loaderCode` template (with the artifact's relative path spliced in). -/
def loaderCode (relativePath : String) : String :=
  "\n    const bytenode = require(\x27bytenode\x27);\n    require(\x27./" ++
    relativePath ++ "\x27);\n  "

/-- Embedding of `compileFile`.  The file's contents stand in for
`fs.readFileSync(filename)`; `electronCompile` stands for the
`compileElectronCode` subprocess path (`none` when Electron is not
installed); `output` is the deprecated second positional argument.
Destructuring of the two call forms, the `output` fallback chain, shebang
stripping, module wrapping, compilation and the artifact/loader writes follow
src/index.ts lines 187-240. -/
def compileFile (E : Engine) (electronCompile : Option (String → List Nat))
    (args : CompileFileArgs) (output : Option String) (fileContents : String) :
    CompileFileOutcome :=
  match (match args with
    | CompileFileArgs.legacy f =>
        (some f, (none : Option String), true, false, false,
          (none : Option String))
    | CompileFileArgs.opts o =>
        (o.filename, o.output, !(o.compileAsModule == some false),
          o.electron == some true, true, o.loaderFilename)) with
  | (filename?, outputOpt, compileAsModule, electron, createLoader,
      loaderFilename) =>
    match filename? with
    | none =>
        { result := Except.error (BytenodeError.invalidArgument
            "filename must be a string. undefined was given.")
          writes := [] }
    | some filename =>
        let compiledFilename :=
          if !(strFalsy outputOpt) then outputOpt.getD ""
          else if !(strFalsy output) then output.getD ""
          else String.mk (filename.data.take (filename.data.length - 3)) ++
            COMPILED_EXTNAME
        let code :=
          if compileAsModule then moduleWrap (stripShebang fileContents)
          else stripShebang fileContents
        match (if electron then Option.map (fun g => g code) electronCompile
               else some (compileCode E code)) with
        | none =>
            { result := Except.error (BytenodeError.invalidArgument
                "Electron not installed")
              writes := [] }
        | some bytecodeBuffer =>
            if createLoader then
              { result := Except.ok compiledFilename
                writes := [FsWrite.artifact compiledFilename bytecodeBuffer,
                           FsWrite.loaderStub compiledFilename loaderFilename] }
            else
              { result := Except.ok compiledFilename
                writes := [FsWrite.artifact compiledFilename bytecodeBuffer] }

/-- The header byte ranges (start, end) that `fixBytecode` copies from the
dummy buffer, keyed by version, in copy order. -/
def patchRanges (ver : String) : List (Nat × Nat) :=
  if isEarlyVersion ver then [(16, 20), (20, 24)]
  else if isMidVersion ver then [(12, 16)]
  else [(12, 16), (16, 20)]

/-- A concrete engine used to instantiate the engine-parametric theorems on
closed inputs. -/
def toyEngine : Engine where
  createCachedDataAvailable := true
  createCachedData := fun _ => List.replicate 24 0
  cachedData := fun _ => []
  rejects := fun _ _ => false
  runScript := fun _ _ => JSValue.num 2
  applyWrapper := fun _ _ _ => JSValue.num 42
  eval := fun _ => JSValue.num 2

theorem length_writeAt (d : List Nat) (t : Nat) (s : List Nat) :
    (writeAt d t s).length = d.length := by
  induction d generalizing t s with
  | nil => simp [writeAt]
  | cons x d ih =>
    cases s with
    | nil => simp [writeAt]
    | cons y s =>
      cases t with
      | zero => simp [writeAt, ih]
      | succ t => simp [writeAt, ih]

theorem getElem?_writeAt (d : List Nat) (t : Nat) (s : List Nat) (i : Nat) :
    (writeAt d t s)[i]? =
      if t ≤ i ∧ i < t + s.length ∧ i < d.length then s[i - t]?
      else d[i]? := by
  induction d generalizing t s i with
  | nil =>
    have hw : writeAt [] t s = [] := by cases s <;> cases t <;> rfl
    rw [hw, if_neg]
    simp only [List.length_nil]
    omega
  | cons x d ih =>
    cases s with
    | nil =>
      have hw : writeAt (x :: d) t [] = x :: d := by cases t <;> rfl
      rw [hw, if_neg]
      simp only [List.length_nil]
      omega
    | cons y s =>
      cases t with
      | zero =>
        cases i with
        | zero =>
          have hw : writeAt (x :: d) 0 (y :: s) = y :: writeAt d 0 s := rfl
          rw [hw, if_pos]
          · simp
          · simp only [List.length_cons]
            omega
        | succ i =>
          have hw : writeAt (x :: d) 0 (y :: s) = y :: writeAt d 0 s := rfl
          rw [hw, List.getElem?_cons_succ, ih]
          have hiff : (0 ≤ i ∧ i < 0 + s.length ∧ i < d.length) ↔
              (0 ≤ i + 1 ∧ i + 1 < 0 + (y :: s).length ∧
                i + 1 < (x :: d).length) := by
            simp only [List.length_cons]
            omega
          exact if_congr hiff (by simp) (by simp)
      | succ t =>
        cases i with
        | zero =>
          have hw : writeAt (x :: d) (t + 1) (y :: s) =
              x :: writeAt d t (y :: s) := rfl
          rw [hw, if_neg]
          · simp
          · omega
        | succ i =>
          have hw : writeAt (x :: d) (t + 1) (y :: s) =
              x :: writeAt d t (y :: s) := rfl
          rw [hw, List.getElem?_cons_succ, ih]
          have hiff : (t ≤ i ∧ i < t + (y :: s).length ∧ i < d.length) ↔
              (t + 1 ≤ i + 1 ∧ i + 1 < t + 1 + (y :: s).length ∧
                i + 1 < (x :: d).length) := by
            simp only [List.length_cons]
            omega
          have hsub : i + 1 - (t + 1) = i - t := by omega
          exact if_congr hiff (by rw [hsub]) (by simp)

theorem writeAt_idem (d : List Nat) (t : Nat) (s : List Nat) :
    writeAt (writeAt d t s) t s = writeAt d t s := by
  apply List.ext_getElem?
  intro i
  rw [getElem?_writeAt, getElem?_writeAt, length_writeAt]
  by_cases hc : t ≤ i ∧ i < t + s.length ∧ i < d.length
  · simp only [if_pos hc]
  · simp only [if_neg hc]

theorem writeAt_comm (d : List Nat) (t₁ : Nat) (s₁ : List Nat)
    (t₂ : Nat) (s₂ : List Nat) (h : t₁ + s₁.length ≤ t₂) :
    writeAt (writeAt d t₁ s₁) t₂ s₂ = writeAt (writeAt d t₂ s₂) t₁ s₁ := by
  apply List.ext_getElem?
  intro i
  rw [getElem?_writeAt, getElem?_writeAt, getElem?_writeAt, getElem?_writeAt,
    length_writeAt, length_writeAt]
  by_cases hc1 : t₁ ≤ i ∧ i < t₁ + s₁.length ∧ i < d.length
  · have hc2 : ¬(t₂ ≤ i ∧ i < t₂ + s₂.length ∧ i < d.length) := by omega
    simp only [if_pos hc1, if_neg hc2]
  · by_cases hc2 : t₂ ≤ i ∧ i < t₂ + s₂.length ∧ i < d.length
    · simp only [if_pos hc2, if_neg hc1]
    · simp only [if_neg hc1, if_neg hc2]

theorem take_writeAt (d : List Nat) (t : Nat) (s : List Nat) (n : Nat)
    (h : n ≤ t) :
    (writeAt d t s).take n = d.take n := by
  apply List.ext_getElem?
  intro i
  rw [List.getElem?_take, List.getElem?_take]
  by_cases hn : i < n
  · rw [if_pos hn, if_pos hn, getElem?_writeAt, if_neg]
    omega
  · rw [if_neg hn, if_neg hn]

/-- The number of bytes a clipped slice `src.slice(a, e)` holds is at most
`e - a`. -/
theorem length_slice_le (src : List Nat) (a e : Nat) :
    ((src.take e).drop a).length ≤ e - a := by
  rw [List.length_drop, List.length_take]
  omega

theorem fixBytecode_eq_early (E : Engine) (ver : String) (b : List Nat)
    (h : isEarlyVersion ver = true) :
    fixBytecode E ver b =
      copyBytes (compileCode E dummySource) 20 24 20
        (copyBytes (compileCode E dummySource) 16 20 16 b) := by
  simp [fixBytecode, h]

theorem fixBytecode_eq_mid (E : Engine) (ver : String) (b : List Nat)
    (h1 : isEarlyVersion ver = false) (h2 : isMidVersion ver = true) :
    fixBytecode E ver b =
      copyBytes (compileCode E dummySource) 12 16 12 b := by
  simp [fixBytecode, h1, h2]

theorem fixBytecode_eq_current (E : Engine) (ver : String) (b : List Nat)
    (h1 : isEarlyVersion ver = false) (h2 : isMidVersion ver = false) :
    fixBytecode E ver b =
      copyBytes (compileCode E dummySource) 16 20 16
        (copyBytes (compileCode E dummySource) 12 16 12 b) := by
  simp [fixBytecode, h1, h2]

/-- Re-writing the same two disjoint byte ranges a second time changes
nothing. -/
theorem writeAt_writeAt_idem (d : List Nat) (t₁ : Nat) (s₁ : List Nat)
    (t₂ : Nat) (s₂ : List Nat) (h : t₁ + s₁.length ≤ t₂) :
    writeAt (writeAt (writeAt (writeAt d t₁ s₁) t₂ s₂) t₁ s₁) t₂ s₂ =
      writeAt (writeAt d t₁ s₁) t₂ s₂ := by
  rw [← writeAt_comm (writeAt d t₁ s₁) t₁ s₁ t₂ s₂ h, writeAt_idem, writeAt_idem]

/-- The Header Patcher is idempotent: patching an already-patched buffer with
the same dummy reference buffer changes nothing. -/
theorem fixBytecode_idem (E : Engine) (ver : String) (b : List Nat) :
    fixBytecode E ver (fixBytecode E ver b) = fixBytecode E ver b := by
  cases h1 : isEarlyVersion ver with
  | true =>
    rw [fixBytecode_eq_early E ver _ h1, fixBytecode_eq_early E ver b h1]
    unfold copyBytes
    exact writeAt_writeAt_idem b 16 _ 20 _
      (by have := length_slice_le (compileCode E dummySource) 16 20; omega)
  | false =>
    cases h2 : isMidVersion ver with
    | true =>
      rw [fixBytecode_eq_mid E ver _ h1 h2, fixBytecode_eq_mid E ver b h1 h2]
      unfold copyBytes
      exact writeAt_idem _ _ _
    | false =>
      rw [fixBytecode_eq_current E ver _ h1 h2,
        fixBytecode_eq_current E ver b h1 h2]
      unfold copyBytes
      exact writeAt_writeAt_idem b 12 _ 16 _
        (by have := length_slice_le (compileCode E dummySource) 12 16; omega)

/-- A prefix of the buffer strictly below every patched range is untouched by
a single range copy. -/
theorem take_copyBytes (src : List Nat) (a e t : Nat) (dst : List Nat)
    (n : Nat) (h : n ≤ t) :
    (copyBytes src a e t dst).take n = dst.take n :=
  take_writeAt dst t _ n h

/-- The base-256 positional fold of `readSourceHash`, evaluated on a list of
at most four bytes. -/
theorem enumFold4 (l : List Nat) (h : l.length ≤ 4) :
    l.enum.foldl (fun sum p => sum + p.2 * 256 ^ p.1) 0 =
      l.getD 0 0 + l.getD 1 0 * 256 + l.getD 2 0 * 256 ^ 2 +
        l.getD 3 0 * 256 ^ 3 := by
  match l with
  | [] => simp
  | [a] =>
    simp [List.enum, List.enumFrom]
  | [a, b] =>
    simp [List.enum, List.enumFrom]
  | [a, b, c] =>
    simp [List.enum, List.enumFrom]
  | [a, b, c, d] =>
    simp [List.enum, List.enumFrom]
  | _ :: _ :: _ :: _ :: _ :: _ =>
    simp at h

/-- Reading one byte of a clipped slice reads the underlying buffer. -/
theorem getD_slice (b : List Nat) (a e i : Nat) (h : a + i < e) :
    ((b.take e).drop a).getD i 0 = b.getD (a + i) 0 := by
  rw [List.getD_eq_getElem?_getD, List.getD_eq_getElem?_getD,
    List.getElem?_drop, List.getElem?_take, if_pos h]

/-- A clipped 4-byte slice holds at most four bytes. -/
theorem length_slice4_le (b : List Nat) (a e : Nat) (h : e ≤ a + 4) :
    ((b.take e).drop a).length ≤ 4 := by
  have := length_slice_le b a e
  omega

/-- Equation for `runBytecode` on a buffer the engine rejects. -/
theorem runBytecode_eq_of_rejects (E : Engine) (ver : String) (b : List Nat)
    (h : E.rejects (dummyCode (readSourceHash ver (fixBytecode E ver b)))
      (fixBytecode E ver b) = true) :
    runBytecode E ver (JSInput.buffer b) =
      { result := Except.error (BytenodeError.incompatibleCache
          "Invalid or incompatible cached data (cachedDataRejected)")
        finalInput := JSInput.buffer (fixBytecode E ver b)
        calls := [EngineCall.compileCall dummySource,
                  EngineCall.scriptWithCache
                    (dummyCode (readSourceHash ver (fixBytecode E ver b)))
                    (fixBytecode E ver b)] } := by
  simp [runBytecode, h]

/-- Equation for `runBytecode` on a buffer the engine accepts. -/
theorem runBytecode_eq_of_accepts (E : Engine) (ver : String) (b : List Nat)
    (h : E.rejects (dummyCode (readSourceHash ver (fixBytecode E ver b)))
      (fixBytecode E ver b) = false) :
    runBytecode E ver (JSInput.buffer b) =
      { result := Except.ok (E.runScript
          (dummyCode (readSourceHash ver (fixBytecode E ver b)))
          (fixBytecode E ver b))
        finalInput := JSInput.buffer (fixBytecode E ver b)
        calls := [EngineCall.compileCall dummySource,
                  EngineCall.scriptWithCache
                    (dummyCode (readSourceHash ver (fixBytecode E ver b)))
                    (fixBytecode E ver b),
                  EngineCall.runInThisContext] } := by
  simp [runBytecode, h]

/-- Claim C3: the Header Patcher is idempotent.  For every cache buffer `b`,
patching `b` twice leaves it byte-for-byte identical to patching it once:
`patch(patch(b)) == patch(b)` (for any engine and any detected version). -/
theorem fixBytecode_idempotent (E : Engine) (ver : String) (b : List Nat) :
    fixBytecode E ver (fixBytecode E ver b) = fixBytecode E ver b :=
  fixBytecode_idem E ver b

/-- Claim C9: for every cache buffer and every engine version branch, the
byte ranges the Header Patcher copies are disjoint from the 4-byte range the
Source-Hash Reader decodes, so `readLength(patch(b)) == readLength(b)`. -/
theorem readSourceHash_fixBytecode (E : Engine) (ver : String) (b : List Nat) :
    readSourceHash ver (fixBytecode E ver b) = readSourceHash ver b := by
  cases h1 : isEarlyVersion ver with
  | true =>
    rw [fixBytecode_eq_early E ver b h1]
    unfold readSourceHash
    rw [if_pos h1, if_pos h1, take_copyBytes _ _ _ _ _ _ (by omega),
      take_copyBytes _ _ _ _ _ _ (by omega)]
  | false =>
    have h1' : ¬(isEarlyVersion ver = true) := by simp [h1]
    cases h2 : isMidVersion ver with
    | true =>
      rw [fixBytecode_eq_mid E ver b h1 h2]
      unfold readSourceHash
      rw [if_neg h1', if_neg h1', take_copyBytes _ _ _ _ _ _ (by omega)]
    | false =>
      rw [fixBytecode_eq_current E ver b h1 h2]
      unfold readSourceHash
      rw [if_neg h1', if_neg h1', take_copyBytes _ _ _ _ _ _ (by omega),
        take_copyBytes _ _ _ _ _ _ (by omega)]

/-- Claim C5: `readSourceHash` decodes a 4-byte field of the cache buffer as
the little-endian base-256 positional sum `byte[i] * 256^i`, at offset 12 for
the early (v8.8/v8.9) layout and at the single offset 8 shared by the mid,
current and default layouts. -/
theorem readSourceHash_decodes (ver : String) (b : List Nat) :
    readSourceHash ver b =
      (if isEarlyVersion ver then
        b.getD 12 0 + b.getD 13 0 * 256 + b.getD 14 0 * 256 ^ 2 +
          b.getD 15 0 * 256 ^ 3
      else
        b.getD 8 0 + b.getD 9 0 * 256 + b.getD 10 0 * 256 ^ 2 +
          b.getD 11 0 * 256 ^ 3) := by
  unfold readSourceHash
  by_cases h1 : isEarlyVersion ver = true
  · rw [if_pos h1, if_pos h1,
      enumFold4 _ (length_slice4_le b 12 16 (by omega)),
      getD_slice b 12 16 0 (by omega), getD_slice b 12 16 1 (by omega),
      getD_slice b 12 16 2 (by omega), getD_slice b 12 16 3 (by omega)]
  · rw [if_neg h1, if_neg h1,
      enumFold4 _ (length_slice4_le b 8 12 (by omega)),
      getD_slice b 8 12 0 (by omega), getD_slice b 8 12 1 (by omega),
      getD_slice b 8 12 2 (by omega), getD_slice b 8 12 3 (by omega)]

/-- Claim C6: when the decoded placeholder length is greater than 1, the
placeholder is a quoted string literal of `length - 2` zero-width spaces, so
it has exactly `length` characters; when the length is at most 1, the
placeholder is empty. -/
theorem dummyCode_spec (length : Nat) :
    dummyCode length =
        (if 1 < length then
          "\"" ++ String.mk (List.replicate (length - 2) zwsp) ++ "\""
        else "")
      ∧ (dummyCode length).length = (if 1 < length then length else 0) := by
  constructor
  · rfl
  · unfold dummyCode
    by_cases h : length > 1
    · rw [if_pos h, if_pos h]
      rw [String.length_append, String.length_append]
      have h1 : (String.mk (List.replicate (length - 2) zwsp)).length =
          length - 2 := List.length_replicate _ _
      have h2 : ("\"" : String).length = 1 := rfl
      rw [h1, h2]
      omega
    · rw [if_neg h, if_neg h]
      rfl

/-- Claim C4, counterexample: the claim that the current layout's two ranges
sit at offsets shared with neither of the other two layouts is false — the
current layout (any unmatched version, here v20) shares its `[16,20)` range
with the early layout (v8.8) and its `[12,16)` range with the mid layout
(v12). -/
theorem patchRanges_shared_offsets_cex :
    ¬(∀ r ∈ patchRanges "v20.0.0",
        r ∉ patchRanges "v8.8.0" ∧ r ∉ patchRanges "v12.0.0") := by
  decide

/-- Claim C4, amended: the Header Patcher selects the copied byte ranges by
detected engine version with exactly three layouts — early (v8.8/v8.9): two
4-byte ranges `[16,20)` and `[20,24)`; mid (v12..v15): the single 4-byte
range `[12,16)`; current: the two 4-byte ranges `[12,16)` and `[16,20)` —
and any version not matching a known signature uses the current layout.
Contrary to the original claim, the current layout shares its `[16,20)`
range with the early layout and its `[12,16)` range with the mid layout. -/
theorem fixBytecode_layouts (E : Engine) (ver : String) (b : List Nat) :
    fixBytecode E ver b =
        (patchRanges ver).foldl
          (fun acc r => copyBytes (compileCode E dummySource) r.1 r.2 r.1 acc)
          b
      ∧ patchRanges ver =
          (if isEarlyVersion ver then [(16, 20), (20, 24)]
           else if isMidVersion ver then [(12, 16)]
           else [(12, 16), (16, 20)])
      ∧ ((16, 20) ∈ patchRanges "v8.8.0" ∧ (16, 20) ∈ patchRanges "v20.0.0" ∧
          (12, 16) ∈ patchRanges "v12.0.0" ∧ (12, 16) ∈ patchRanges "v20.0.0") := by
  refine ⟨?_, rfl, by decide⟩
  cases h1 : isEarlyVersion ver with
  | true =>
    rw [fixBytecode_eq_early E ver b h1]
    simp [patchRanges, h1]
  | false =>
    cases h2 : isMidVersion ver with
    | true =>
      rw [fixBytecode_eq_mid E ver b h1 h2]
      simp [patchRanges, h1, h2]
    | false =>
      rw [fixBytecode_eq_current E ver b h1 h2]
      simp [patchRanges, h1, h2]

/-- Claim C7: for every input to `runBytecode` that is not a byte buffer,
`runBytecode` throws `InvalidArgument` before making any engine call, and the
input is left unchanged (no patching occurs). -/
theorem runBytecode_nonbuffer (E : Engine) (ver : String) (input : JSInput)
    (h : input.isBuffer = false) :
    (runBytecode E ver input).result =
        Except.error (BytenodeError.invalidArgument
          "bytecodeBuffer must be a buffer object.")
      ∧ (runBytecode E ver input).finalInput = input
      ∧ (runBytecode E ver input).calls = [] := by
  cases input with
  | buffer b => simp [JSInput.isBuffer] at h
  | jsString s => exact ⟨rfl, rfl, rfl⟩
  | jsNumber n => exact ⟨rfl, rfl, rfl⟩
  | jsUndefined => exact ⟨rfl, rfl, rfl⟩

/-- Witness for C7 at the concrete non-buffer input `'hello'`. -/
theorem runBytecode_nonbuffer_witness :
    (JSInput.jsString "hello").isBuffer = false
      ∧ ((runBytecode toyEngine "v16.0.0" (JSInput.jsString "hello")).result =
            Except.error (BytenodeError.invalidArgument
              "bytecodeBuffer must be a buffer object.")
          ∧ (runBytecode toyEngine "v16.0.0"
              (JSInput.jsString "hello")).finalInput =
            JSInput.jsString "hello"
          ∧ (runBytecode toyEngine "v16.0.0"
              (JSInput.jsString "hello")).calls = []) :=
  ⟨rfl, runBytecode_nonbuffer toyEngine "v16.0.0" (JSInput.jsString "hello") rfl⟩

/-- Claim C2: for every byte buffer `b`, `runBytecode` first applies the
Header Patcher to `b` in place (always — and applying it to an
already-patched buffer leaves the buffer unchanged), then reads the
placeholder length from the patched buffer; it throws `IncompatibleCache`
exactly when the engine's cache-rejected signal is set after compiling the
placeholder with the patched `b` as cached data, and it returns the executed
completion value exactly when that signal is unset. -/
theorem runBytecode_buffer_spec (E : Engine) (ver : String) (b : List Nat) :
    (runBytecode E ver (JSInput.buffer b)).finalInput =
        JSInput.buffer (fixBytecode E ver b)
      ∧ ((runBytecode E ver (JSInput.buffer b)).result =
            Except.error (BytenodeError.incompatibleCache
              "Invalid or incompatible cached data (cachedDataRejected)")
          ↔ E.rejects (dummyCode (readSourceHash ver (fixBytecode E ver b)))
              (fixBytecode E ver b) = true)
      ∧ ((runBytecode E ver (JSInput.buffer b)).result =
            Except.ok (E.runScript
              (dummyCode (readSourceHash ver (fixBytecode E ver b)))
              (fixBytecode E ver b))
          ↔ E.rejects (dummyCode (readSourceHash ver (fixBytecode E ver b)))
              (fixBytecode E ver b) = false)
      ∧ (runBytecode E ver
            (JSInput.buffer (fixBytecode E ver b))).finalInput =
          JSInput.buffer (fixBytecode E ver b) := by
  have hidem := fixBytecode_idem E ver b
  cases hr : E.rejects (dummyCode (readSourceHash ver (fixBytecode E ver b)))
      (fixBytecode E ver b) with
  | true =>
    rw [runBytecode_eq_of_rejects E ver b hr]
    refine ⟨rfl, by simp, by simp, ?_⟩
    cases hr2 : E.rejects
        (dummyCode (readSourceHash ver
          (fixBytecode E ver (fixBytecode E ver b))))
        (fixBytecode E ver (fixBytecode E ver b)) with
    | true => rw [runBytecode_eq_of_rejects E ver _ hr2, hidem]
    | false => rw [runBytecode_eq_of_accepts E ver _ hr2, hidem]
  | false =>
    rw [runBytecode_eq_of_accepts E ver b hr]
    refine ⟨rfl, by simp, by simp, ?_⟩
    cases hr2 : E.rejects
        (dummyCode (readSourceHash ver
          (fixBytecode E ver (fixBytecode E ver b))))
        (fixBytecode E ver (fixBytecode E ver b)) with
    | true => rw [runBytecode_eq_of_rejects E ver _ hr2, hidem]
    | false => rw [runBytecode_eq_of_accepts E ver _ hr2, hidem]

/-- Claim C1: round-trip.  For a source text `s`, running
`compileCode(s)` through `runBytecode` yields the same completion value as
directly evaluating `s` in the same context, given the engine contract for
an accepted cache: the engine does not reject the patched cache for the
synthesized placeholder, and running the script whose cached data came from
compiling `s` yields the evaluation of `s` (the "last statement is a pure
expression" proviso of the claim). -/
theorem runBytecode_compileCode_roundTrip (E : Engine) (ver : String)
    (s : String)
    (hacc : E.rejects
      (dummyCode (readSourceHash ver (fixBytecode E ver (compileCode E s))))
      (fixBytecode E ver (compileCode E s)) = false)
    (hrun : E.runScript
      (dummyCode (readSourceHash ver (fixBytecode E ver (compileCode E s))))
      (fixBytecode E ver (compileCode E s)) = E.eval s) :
    (runBytecode E ver (JSInput.buffer (compileCode E s))).result =
      Except.ok (E.eval s) := by
  rw [runBytecode_eq_of_accepts E ver _ hacc]
  rw [hrun]

/-- Witness for C1: Scenario A with the toy engine — compiling `1+1` as a
non-module script and running the resulting buffer returns `2`. -/
theorem runBytecode_compileCode_roundTrip_witness :
    (toyEngine.rejects
        (dummyCode (readSourceHash "v16.0.0"
          (fixBytecode toyEngine "v16.0.0" (compileCode toyEngine "1+1"))))
        (fixBytecode toyEngine "v16.0.0" (compileCode toyEngine "1+1")) =
          false)
      ∧ (runBytecode toyEngine "v16.0.0"
          (JSInput.buffer (compileCode toyEngine "1+1"))).result =
        Except.ok (JSValue.num 2) :=
  ⟨rfl, runBytecode_compileCode_roundTrip toyEngine "v16.0.0" "1+1" rfl rfl⟩

/-- Claim C8: when a `.jsc` file is imported, the loader invokes the compiled
unit as a module-wrapper function with exactly these arguments in this fixed
order: the module's exports object, the module-scoped `require` (with
`resolve`, `extensions` and `cache` attached), the module handle, the
absolute filename, its containing directory, the process handle, and the
global object. -/
theorem jscExtension_wrapper_args (E : Engine) (ver : String)
    (dirnameFn : String → String) (hasMainModule : Bool) (filename : String)
    (fileBytes : List Nat)
    (h : E.rejects
      (dummyCode (readSourceHash ver (fixBytecode E ver fileBytes)))
      (fixBytecode E ver fileBytes) = false) :
    (jscExtension E ver dirnameFn hasMainModule filename fileBytes).wrapperCall =
      some [WrapperArg.moduleExports,
            WrapperArg.requireFn
              { hasResolve := true, hasExtensions := true, hasCache := true,
                hasMain := hasMainModule },
            WrapperArg.moduleHandle,
            WrapperArg.filenameArg filename,
            WrapperArg.dirnameArg (dirnameFn filename),
            WrapperArg.processHandle,
            WrapperArg.globalObj] := by
  simp [jscExtension, h]

/-- Witness for C8 at a concrete file and the toy engine. -/
theorem jscExtension_wrapper_args_witness :
    (toyEngine.rejects
        (dummyCode (readSourceHash "v16.0.0"
          (fixBytecode toyEngine "v16.0.0" [])))
        (fixBytecode toyEngine "v16.0.0" []) = false)
      ∧ (jscExtension toyEngine "v16.0.0" (fun _ => "/tmp") true
          "/tmp/a.jsc" []).wrapperCall =
        some [WrapperArg.moduleExports,
              WrapperArg.requireFn
                { hasResolve := true, hasExtensions := true,
                  hasCache := true, hasMain := true },
              WrapperArg.moduleHandle,
              WrapperArg.filenameArg "/tmp/a.jsc",
              WrapperArg.dirnameArg "/tmp",
              WrapperArg.processHandle,
              WrapperArg.globalObj] :=
  ⟨rfl, jscExtension_wrapper_args toyEngine "v16.0.0" (fun _ => "/tmp") true
    "/tmp/a.jsc" [] rfl⟩

/-- Claim C10: whenever `compileFile` is called with an options object, a
loader stub is always written immediately after the artifact, regardless of
the value of the `createLoader` option (the outcome is entirely independent
of that option); only the legacy string-argument form skips the loader
write. -/
theorem compileFile_loader_spec (E : Engine)
    (ec : Option (String → List Nat)) (o : BytenodeOptions)
    (output : Option String) (contents : String) (cf : String)
    (h : (compileFile E ec (CompileFileArgs.opts o) output contents).result =
      Except.ok cf) :
    (∃ bytes,
        (compileFile E ec (CompileFileArgs.opts o) output contents).writes =
          [FsWrite.artifact cf bytes,
           FsWrite.loaderStub cf o.loaderFilename])
      ∧ (∀ cl : Option Bool,
          compileFile E ec
              (CompileFileArgs.opts { o with createLoader := cl })
              output contents =
            compileFile E ec (CompileFileArgs.opts o) output contents)
      ∧ (∀ f : String, ∃ cf₂ bytes,
          compileFile E ec (CompileFileArgs.legacy f) output contents =
            { result := Except.ok cf₂,
              writes := [FsWrite.artifact cf₂ bytes] }) := by
  refine ⟨?_, fun cl => rfl, fun f => ⟨_, _, rfl⟩⟩
  cases hf : o.filename with
  | none =>
    rw [compileFile] at h
    simp only [hf] at h
    exact absurd h (by simp)
  | some filename =>
    rw [compileFile] at h ⊢
    simp only [hf] at h ⊢
    cases he : (if o.electron == some true then
        Option.map (fun g => g (if !(o.compileAsModule == some false) then
          moduleWrap (stripShebang contents) else stripShebang contents)) ec
      else some (compileCode E
        (if !(o.compileAsModule == some false) then
          moduleWrap (stripShebang contents)
        else stripShebang contents))) with
    | none =>
      rw [he] at h
      simp at h
    | some bytecodeBuffer =>
      rw [he] at h
      simp only [if_true, Except.ok.injEq] at h
      refine ⟨bytecodeBuffer, ?_⟩
      simp only [if_true]
      rw [h]

/-- Witness for C10: a concrete options object with `createLoader := some
false` still gets a loader stub written after the artifact. -/
theorem compileFile_loader_spec_witness :
    ((compileFile toyEngine none
        (CompileFileArgs.opts
          { filename := some "a.js", output := none, compileAsModule := none,
            electron := none, createLoader := some false,
            loaderFilename := none })
        none "x").result = Except.ok "a.jsc")
      ∧ ((∃ bytes,
            (compileFile toyEngine none
              (CompileFileArgs.opts
                { filename := some "a.js", output := none,
                  compileAsModule := none, electron := none,
                  createLoader := some false, loaderFilename := none })
              none "x").writes =
              [FsWrite.artifact "a.jsc" bytes,
               FsWrite.loaderStub "a.jsc" none])
          ∧ (∀ cl : Option Bool,
              compileFile toyEngine none
                  (CompileFileArgs.opts
                    { filename := some "a.js", output := none,
                      compileAsModule := none, electron := none,
                      createLoader := cl, loaderFilename := none })
                  none "x" =
                compileFile toyEngine none
                  (CompileFileArgs.opts
                    { filename := some "a.js", output := none,
                      compileAsModule := none, electron := none,
                      createLoader := some false, loaderFilename := none })
                  none "x")
          ∧ (∀ f : String, ∃ cf₂ bytes,
              compileFile toyEngine none (CompileFileArgs.legacy f)
                  none "x" =
                { result := Except.ok cf₂,
                  writes := [FsWrite.artifact cf₂ bytes] })) :=
  ⟨rfl, compileFile_loader_spec toyEngine none
    { filename := some "a.js", output := none, compileAsModule := none,
      electron := none, createLoader := some false, loaderFilename := none }
    none "x" "a.jsc" rfl⟩

end Bytenode
